import Mathlib

/-!
Shallow embedding of `arcade/draw_commands.py` (immediate-mode 2D drawing
commands): color normalization, point rotation, shape tessellation
(arc / ellipse / rectangle), the texture constructor, the texture cache of
`load_texture`, and `load_textures`.

Conventions used throughout:
* Python floats are modeled as real numbers (`ℝ`) in the geometric layer and
  as rationals (`ℚ`) where the code only compares and combines them
  arithmetically, so that concrete instances can be decided.
* Functions that can raise a Python exception return `Except PyErr _`;
  raising before any further work is modeled by returning `.error` without a
  payload, so no partial result exists on the failure path.
* The GPU submission of `_generic_draw_line_strip` is modeled by the pair of
  the submitted point list and the GL primitive mode; buffer upload, blending
  state and the projection uniform are outside the model.
-/

/-- Decidable equality for `Except`, needed to decide concrete runs of the
fallible operations below. -/
instance {ε α : Type} [DecidableEq ε] [DecidableEq α] : DecidableEq (Except ε α)
  | .ok a, .ok b => if h : a = b then .isTrue (by rw [h]) else .isFalse (by simp [h])
  | .ok _, .error _ => .isFalse (by simp)
  | .error _, .ok _ => .isFalse (by simp)
  | .error e, .error f => if h : e = f then .isTrue (by rw [h]) else .isFalse (by simp [h])

/-- Kinds of Python exception raised by the module: `ValueError` (invalid
color format, invalid texture dimension, crop out of bounds) and
`AttributeError` (invalid rectangle bounds). Messages are not modeled. -/
inductive PyErr where
  | valueError
  | attributeError
deriving DecidableEq, Repr

/-- GL primitive modes used by the draw commands (`gl.GL_TRIANGLE_FAN`,
`gl.GL_TRIANGLE_STRIP`, `gl.GL_LINE_LOOP`, ...). -/
inductive GLMode where
  | triangleFan
  | triangleStrip
  | lineLoop
  | lineStrip
  | glLines
  | glPoints
  | glPolygon
deriving DecidableEq, Repr

/-- Embedding of `get_four_byte_color` (draw_commands.py:51-64): a 4-channel
color is returned unchanged, a 3-channel color gets alpha 255 appended, and
anything else raises `ValueError`. Channels are bytes, modeled as `ℕ`. -/
def get_four_byte_color (color : List ℕ) : Except PyErr (List ℕ) :=
  match color with
  | [r, g, b, a] => .ok [r, g, b, a]
  | [r, g, b] => .ok [r, g, b, 255]
  | _ => .error .valueError

/-- Embedding of the `Texture` object state (draw_commands.py:121-166):
the GL texture id, the reported width and height, and the source name.
The lazily created sprite draw proxy is not modeled. -/
structure Texture where
  texture_id : ℕ
  width : ℚ
  height : ℚ
  texture_name : String
deriving DecidableEq, Repr

/-- Embedding of `Texture.__init__` (draw_commands.py:133-166): raises
`ValueError` when `height < 0` (checked first) or `width < 0`; otherwise the
object is created with exactly the given attributes. Returning `Except`
models that no attribute is assigned before the validation passes. -/
def mkTexture (texture_id : ℕ) (width height : ℚ) (file_name : String) : Except PyErr Texture :=
  if height < 0 then .error .valueError
  else if width < 0 then .error .valueError
  else .ok ⟨texture_id, width, height, file_name⟩

/-- Python `str()` of a boolean, as used when the cache key is formatted. -/
def pyBoolStr (b : Bool) : String :=
  if b then "True" else "False"

/-- Embedding of the cache key of `load_texture` (draw_commands.py:338):
the separator-free concatenation
`"\x7b\x7d\x7b\x7d\x7b\x7d\x7b\x7d\x7b\x7d\x7b\x7d\x7b\x7d\x7b\x7d".format(file_name, x, y, width, height, scale, flipped, mirrored)`.
Numeric arguments are rationals rendered by `toString`, which agrees with
Python `str()` on integer-valued arguments (the cases exercised below). -/
def cacheName (file_name : String) (x y width height scale : ℚ) (flipped mirrored : Bool) : String :=
  file_name ++ toString x ++ toString y ++ toString width ++ toString height
    ++ toString scale ++ pyBoolStr flipped ++ pyBoolStr mirrored

/-- Lookup in the process-wide `load_texture.texture_cache` dict, modeled as
an association list with the most recent insertion first. -/
def lookupCache (cache : List (String × Texture)) (key : String) : Option Texture :=
  match cache with
  | [] => none
  | (k, t) :: rest => if k = key then some t else lookupCache rest key

/-- Embedding of `load_texture` (draw_commands.py:279-405). `img` maps a file
name to the decoded source image size. On a cache hit the cached `Texture`
is returned and the cache is unchanged; on a miss the crop bounds are
validated (only when some crop argument is nonzero), a texture is created
whose reported width and height are the decoded size times `scale`, and the
new entry is inserted. The fresh GL texture id is modeled as the number of
cache entries at creation time; pixel data, mirroring and flipping do not
affect any modeled component, matching the fact that they do not change the
image size in the source. -/
def load_texture (img : String → ℚ × ℚ) (cache : List (String × Texture)) (file_name : String)
    (x y width height : ℚ) (mirrored flipped : Bool) (scale : ℚ) :
    Except PyErr (Texture × List (String × Texture)) :=
  match lookupCache cache (cacheName file_name x y width height scale flipped mirrored) with
  | some t => .ok (t, cache)
  | none =>
    if x ≠ 0 ∨ y ≠ 0 ∨ width ≠ 0 ∨ height ≠ 0 then
      if x > (img file_name).1 then .error .valueError
      else if y > (img file_name).2 then .error .valueError
      else if x + width > (img file_name).1 then .error .valueError
      else if y + height > (img file_name).2 then .error .valueError
      else
        match mkTexture cache.length (width * scale) (height * scale) file_name with
        | .error e => .error e
        | .ok t => .ok (t, (cacheName file_name x y width height scale flipped mirrored, t) :: cache)
    else
      match mkTexture cache.length ((img file_name).1 * scale) ((img file_name).2 * scale) file_name with
      | .error e => .error e
      | .ok t => .ok (t, (cacheName file_name x y width height scale flipped mirrored, t) :: cache)

/-- A 100 by 100 source image for the concrete cache runs below. -/
def img100 : String → ℚ × ℚ := fun _ => (100, 100)

/-- One entry of the `image_location_list` argument of `load_textures`:
a crop rectangle `[x, y, width, height]`. -/
structure ImageLocation where
  x : ℚ
  y : ℚ
  width : ℚ
  height : ℚ
deriving DecidableEq, Repr

/-- Rendering of an image location, standing in for the Python list that
`load_textures` passes to `Texture` as its name. -/
def locString (loc : ImageLocation) : String :=
  "[" ++ toString loc.x ++ ", " ++ toString loc.y ++ ", "
    ++ toString loc.width ++ ", " ++ toString loc.height ++ "]"

/-- Loop body of `load_textures` (draw_commands.py:224-276). Each entry is
validated against the source image size (`width <= 0`, crop start and crop
end beyond either axis each raise `ValueError`), then a `Texture` is created
carrying the requested crop `width` and `height`. The source computes the
cropped image size scaled by `scale`, but passes the unscaled crop `width`
and `height` to `Texture`, so `scale` (like `mirrored` and `flipped`, which
only transform pixels) has no effect on any returned value; consequently the
loop does not consume them. GL ids are modeled by the running counter. -/
def load_textures_loop (source_image_width source_image_height : ℚ)
    (locs : List ImageLocation) (next_id : ℕ) : Except PyErr (List Texture) :=
  match locs with
  | [] => .ok []
  | loc :: rest =>
    if loc.width ≤ 0 then .error .valueError
    else if loc.x > source_image_width then .error .valueError
    else if loc.y > source_image_height then .error .valueError
    else if loc.x + loc.width > source_image_width then .error .valueError
    else if loc.y + loc.height > source_image_height then .error .valueError
    else
      match mkTexture next_id loc.width loc.height (locString loc) with
      | .error e => .error e
      | .ok t =>
        match load_textures_loop source_image_width source_image_height rest (next_id + 1) with
        | .error e => .error e
        | .ok ts => .ok (t :: ts)

/-- Embedding of `load_textures` (draw_commands.py:192-276): the source image
size replaces the decoded file, and the unused `mirrored`, `flipped` and
`scale` parameters are kept in the signature. -/
def load_textures (source_image_width source_image_height : ℚ)
    (image_location_list : List ImageLocation) (mirrored flipped : Bool) (scale : ℚ) :
    Except PyErr (List Texture) :=
  load_textures_loop source_image_width source_image_height image_location_list 0

/-- Python `round(x)` to an integer: round half to even, the tie rule of
Python 3 `round`. -/
noncomputable def roundHalfEven (x : ℝ) : ℤ :=
  if Int.fract x < 1/2 then ⌊x⌋
  else if 1/2 < Int.fract x then ⌊x⌋ + 1
  else if ⌊x⌋ % 2 = 0 then ⌊x⌋ else ⌊x⌋ + 1

/-- Python `round(x, 2)`: rounding to two decimal places, the
`rounding_precision = 2` used by `rotate_point` (draw_commands.py:114). -/
noncomputable def pyRound2 (x : ℝ) : ℝ :=
  (roundHalfEven (x * 100) : ℝ) / 100

/-- Embedding of `rotate_point` (draw_commands.py:90-118): translate into
center-relative coordinates, rotate by `angle` degrees (radians are
`angle * pi / 180`, as computed by `math.radians`), translate back, and round
each coordinate to two decimal places. -/
noncomputable def rotate_point (x y cx cy angle : ℝ) : ℝ × ℝ :=
  (pyRound2 ((x - cx) * Real.cos (angle * Real.pi / 180)
      - (y - cy) * Real.sin (angle * Real.pi / 180) + cx),
   pyRound2 ((x - cx) * Real.sin (angle * Real.pi / 180)
      + (y - cy) * Real.cos (angle * Real.pi / 180) + cy))

/-- Python `int()` applied to a float: truncation toward zero, which is the
floor for nonnegative arguments and the ceiling for negative ones. -/
noncomputable def pyInt (x : ℝ) : ℤ :=
  if 0 ≤ x then ⌊x⌋ else ⌈x⌉

/-- Segment index of an angle in `draw_arc_filled` (draw_commands.py:454-455):
`int(angle / 360 * num_segments)`. -/
noncomputable def segment_index (angle : ℝ) (num_segments : ℕ) : ℤ :=
  pyInt (angle / 360 * num_segments)

/-- Python `range(a, b + 1)` over integers: the integers from `a` to `b`
inclusive, empty when `b < a`. -/
def segmentList (a b : ℤ) : List ℤ :=
  (List.range (b + 1 - a).toNat).map (fun i => a + i)

/-- Angle parameter of one arc or ellipse segment (draw_commands.py:458,740):
`theta = 2.0 * 3.1415926 * segment / num_segments`. The source uses the
literal `3.1415926`, not `math.pi`. -/
noncomputable def arcTheta (segment : ℤ) (num_segments : ℕ) : ℝ :=
  2 * 3.1415926 * (segment : ℝ) / (num_segments : ℝ)

/-- Tilt stage shared by `draw_arc_filled` and `draw_ellipse_filled`
(draw_commands.py:465-470, 747-752): when the tilt angle is zero the point
list is passed through unchanged, otherwise every point is rotated about the
origin by the tilt angle. -/
noncomputable def tiltPoints (tilt_angle : ℝ) (pts : List (ℝ × ℝ)) : List (ℝ × ℝ) :=
  if tilt_angle = 0 then pts
  else pts.map (fun p => rotate_point p.1 p.2 0 0 tilt_angle)

/-- Modeled from the spec: the tilt stage with the rotation branch applied
unconditionally, i.e. the behavior the spec asserts the `tilt = 0` shortcut
is equivalent to ("skip rotation (optimization, not a semantic branch)"). -/
noncomputable def tiltPointsAlways (tilt_angle : ℝ) (pts : List (ℝ × ℝ)) : List (ℝ × ℝ) :=
  pts.map (fun p => rotate_point p.1 p.2 0 0 tilt_angle)

/-- Embedding of `draw_arc_filled` (draw_commands.py:428-476): the origin is
the fan pivot, one point per integer segment from the start segment to the
end segment inclusive, tilt applied before the final translation by the
center, and the list is submitted as a triangle fan. The forwarded color and
the line width of 1 are outside the model. -/
noncomputable def draw_arc_filled (center_x center_y width height start_angle end_angle tilt_angle : ℝ)
    (num_segments : ℕ) : List (ℝ × ℝ) × GLMode :=
  ((tiltPoints tilt_angle
      (((0 : ℝ), (0 : ℝ)) ::
        (segmentList (segment_index start_angle num_segments)
            (segment_index end_angle num_segments)).map
          (fun segment =>
            (width * Real.cos (arcTheta segment num_segments),
             height * Real.sin (arcTheta segment num_segments))))).map
    (fun p => (p.1 + center_x, p.2 + center_y)),
   GLMode.triangleFan)

/-- Embedding of `draw_ellipse_filled` (draw_commands.py:703-758): one point
per segment in `[0, num_segments)`, tilt, translation by the center, and
triangle-fan submission. -/
noncomputable def draw_ellipse_filled (center_x center_y width height tilt_angle : ℝ)
    (num_segments : ℕ) : List (ℝ × ℝ) × GLMode :=
  ((tiltPoints tilt_angle
      ((List.range num_segments).map
        (fun segment =>
          (width * Real.cos (arcTheta segment num_segments),
           height * Real.sin (arcTheta segment num_segments))))).map
    (fun p => (p.1 + center_x, p.2 + center_y)),
   GLMode.triangleFan)

/-- Python floor division `a // b` on floats: the floor of the true
quotient, as a float. -/
noncomputable def pyFloorDiv (a b : ℝ) : ℝ :=
  (⌊a / b⌋ : ℝ)

/-- Embedding of `draw_rectangle_filled` (draw_commands.py:1285-1321). Python
parses `-width // 2` as `(-width) // 2` (unary minus binds tighter than
`//`), so each corner coordinate is the floor of the signed half-extent plus
the center. The corners `p1 p2 p3 p4` are rotated about the center when the
tilt angle is nonzero, and the list is submitted in the order
`(p1, p2, p4, p3)` as a triangle strip. -/
noncomputable def draw_rectangle_filled (center_x center_y width height tilt_angle : ℝ) :
    List (ℝ × ℝ) × GLMode :=
  if tilt_angle ≠ 0 then
    ([rotate_point (pyFloorDiv (-width) 2 + center_x) (pyFloorDiv (-height) 2 + center_y)
        center_x center_y tilt_angle,
      rotate_point (pyFloorDiv width 2 + center_x) (pyFloorDiv (-height) 2 + center_y)
        center_x center_y tilt_angle,
      rotate_point (pyFloorDiv (-width) 2 + center_x) (pyFloorDiv height 2 + center_y)
        center_x center_y tilt_angle,
      rotate_point (pyFloorDiv width 2 + center_x) (pyFloorDiv height 2 + center_y)
        center_x center_y tilt_angle],
     GLMode.triangleStrip)
  else
    ([(pyFloorDiv (-width) 2 + center_x, pyFloorDiv (-height) 2 + center_y),
      (pyFloorDiv width 2 + center_x, pyFloorDiv (-height) 2 + center_y),
      (pyFloorDiv (-width) 2 + center_x, pyFloorDiv height 2 + center_y),
      (pyFloorDiv width 2 + center_x, pyFloorDiv height 2 + center_y)],
     GLMode.triangleStrip)

/-- Modeled from the spec: `draw_rectangle_filled` with the rotation branch
applied unconditionally (tilt rotation about the center also when the tilt
angle is zero), the path the spec asserts the `tilt = 0` shortcut matches. -/
noncomputable def draw_rectangle_filled_tilted (center_x center_y width height tilt_angle : ℝ) :
    List (ℝ × ℝ) × GLMode :=
  ([rotate_point (pyFloorDiv (-width) 2 + center_x) (pyFloorDiv (-height) 2 + center_y)
      center_x center_y tilt_angle,
    rotate_point (pyFloorDiv width 2 + center_x) (pyFloorDiv (-height) 2 + center_y)
      center_x center_y tilt_angle,
    rotate_point (pyFloorDiv (-width) 2 + center_x) (pyFloorDiv height 2 + center_y)
      center_x center_y tilt_angle,
    rotate_point (pyFloorDiv width 2 + center_x) (pyFloorDiv height 2 + center_y)
      center_x center_y tilt_angle],
   GLMode.triangleStrip)

/-- Embedding of `draw_lrtb_rectangle_filled` (draw_commands.py:1208-1252):
`AttributeError` when `left > right` (checked first) or `bottom > top`,
raised before the center, width and height are computed and before
`draw_rectangle_filled` submits anything; otherwise it delegates to
`draw_rectangle_filled` with tilt zero. -/
noncomputable def draw_lrtb_rectangle_filled (left right top bottom : ℝ) :
    Except PyErr (List (ℝ × ℝ) × GLMode) :=
  if left > right then .error .attributeError
  else if bottom > top then .error .attributeError
  else .ok (draw_rectangle_filled ((left + right) / 2) ((top + bottom) / 2)
      (right - left) (top - bottom) 0)

/-- Rounding an integer-valued real changes nothing. -/
lemma roundHalfEven_intCast (n : ℤ) : roundHalfEven (n : ℝ) = n := by
  unfold roundHalfEven
  simp [Int.fract_intCast]

/-- Evaluation of `pyRound2` when the scaled argument is a known integer. -/
lemma pyRound2_of_mul_eq (x : ℝ) (m : ℤ) (h : x * 100 = (m : ℝ)) :
    pyRound2 x = (m : ℝ) / 100 := by
  unfold pyRound2
  rw [h, roundHalfEven_intCast]

/-- Rotation by zero degrees only rounds both coordinates, regardless of the
center of rotation. -/
lemma rotate_point_angle_zero (x y cx cy : ℝ) :
    rotate_point x y cx cy 0 = (pyRound2 x, pyRound2 y) := by
  unfold rotate_point
  have h1 : (x - cx) * Real.cos (0 * Real.pi / 180)
      - (y - cy) * Real.sin (0 * Real.pi / 180) + cx = x := by simp
  have h2 : (x - cx) * Real.sin (0 * Real.pi / 180)
      + (y - cy) * Real.cos (0 * Real.pi / 180) + cy = y := by simp
  rw [h1, h2]

/-- The origin is a fixed point of every rotation about the origin. -/
lemma rotate_point_origin (angle : ℝ) : rotate_point 0 0 0 0 angle = (0, 0) := by
  unfold rotate_point
  have h0 : pyRound2 (0 : ℝ) = 0 := by
    have := pyRound2_of_mul_eq (0 : ℝ) 0 (by norm_num)
    simpa using this
  simpa using h0

/-- Inversion for a successful `Texture` construction. -/
lemma mkTexture_ok {texture_id : ℕ} {width height : ℚ} {file_name : String} {t : Texture}
    (h : mkTexture texture_id width height file_name = .ok t) :
    t = ⟨texture_id, width, height, file_name⟩ := by
  unfold mkTexture at h
  split at h
  · exact absurd h (by simp)
  · split at h
    · exact absurd h (by simp)
    · exact (Except.ok.injEq _ _ ▸ congrArg id h).symm ▸ by
        cases h
        rfl

/-- An inverted segment range is empty, as for Python `range`. -/
lemma segmentList_empty {a b : ℤ} (h : b < a) : segmentList a b = [] := by
  unfold segmentList
  have : b + 1 - a ≤ 0 := by omega
  rw [Int.toNat_of_nonpos this]
  rfl

/-- C7: for every color, `get_four_byte_color` is the identity on 4-channel
colors, appends alpha 255 to 3-channel colors, and raises `ValueError` for
every other channel count. -/
theorem c7_four_byte_color (color : List ℕ) :
    (color.length = 4 → get_four_byte_color color = .ok color)
    ∧ (color.length = 3 → get_four_byte_color color = .ok (color ++ [255]))
    ∧ (color.length ≠ 3 → color.length ≠ 4 →
        get_four_byte_color color = .error PyErr.valueError) := by
  rcases color with _ | ⟨r, color⟩
  · simp [get_four_byte_color]
  rcases color with _ | ⟨g, color⟩
  · simp [get_four_byte_color]
  rcases color with _ | ⟨b, color⟩
  · simp [get_four_byte_color]
  rcases color with _ | ⟨a, color⟩
  · simp [get_four_byte_color]
  rcases color with _ | ⟨e, color⟩
  · simp [get_four_byte_color]
  · refine ⟨?_, ?_, ?_⟩ <;> simp [get_four_byte_color]

/-- C7 witness: the three branches at concrete colors. -/
theorem c7_four_byte_color_witness :
    get_four_byte_color [1, 2, 3, 4] = .ok [1, 2, 3, 4]
    ∧ get_four_byte_color [9, 8, 7] = .ok ([9, 8, 7] ++ [255])
    ∧ get_four_byte_color [1, 2] = .error PyErr.valueError :=
  ⟨(c7_four_byte_color [1, 2, 3, 4]).1 rfl,
   (c7_four_byte_color [9, 8, 7]).2.1 rfl,
   (c7_four_byte_color [1, 2]).2.2 (by decide) (by decide)⟩

/-- C4 counterexample: width 0 and height 0 are not both greater than zero,
yet the `Texture` construction succeeds, so construction does not fail
whenever the dimensions are not both positive. -/
theorem c4_counterexample :
    ¬((0 : ℚ) > 0 ∧ (0 : ℚ) > 0) ∧ mkTexture 7 0 0 "f" = .ok ⟨7, 0, 0, "f"⟩ := by
  constructor
  · simp
  · decide

/-- C4 amended: `Texture` construction fails with `ValueError` exactly when
width or height is negative (zero is accepted), and on success the object
carries exactly the given attributes, with no state set on the failure
path. -/
theorem c4_texture_validation (texture_id : ℕ) (width height : ℚ) (file_name : String) :
    ((width < 0 ∨ height < 0) →
      mkTexture texture_id width height file_name = .error PyErr.valueError)
    ∧ (0 ≤ width → 0 ≤ height →
      mkTexture texture_id width height file_name = .ok ⟨texture_id, width, height, file_name⟩) := by
  constructor
  · rintro (h | h) <;> unfold mkTexture
    · rcases lt_or_le height 0 with h2 | h2
      · rw [if_pos h2]
      · rw [if_neg (not_lt.mpr h2), if_pos h]
    · rw [if_pos h]
  · intro hw hh
    unfold mkTexture
    rw [if_neg (not_lt.mpr hh), if_neg (not_lt.mpr hw)]

/-- C4 witness: a negative width fails, nonnegative dimensions succeed. -/
theorem c4_texture_validation_witness :
    mkTexture 3 (-1) 5 "a" = .error PyErr.valueError
    ∧ mkTexture 3 1 5 "a" = .ok ⟨3, 1, 5, "a"⟩ :=
  ⟨(c4_texture_validation 3 (-1) 5 "a").1 (Or.inl (by norm_num)),
   (c4_texture_validation 3 1 5 "a").2 (by norm_num) (by norm_num)⟩

/-- C6: `draw_lrtb_rectangle_filled` fails with `AttributeError` whenever
`left > right` or `bottom > top`, returning the error before any geometry or
submission is produced, and otherwise submits exactly the filled rectangle
for the implied center and size. -/
theorem c6_lrtb_bounds (left right top bottom : ℝ) :
    ((left > right ∨ bottom > top) →
      draw_lrtb_rectangle_filled left right top bottom = .error PyErr.attributeError)
    ∧ (left ≤ right → bottom ≤ top →
      draw_lrtb_rectangle_filled left right top bottom =
        .ok (draw_rectangle_filled ((left + right) / 2) ((top + bottom) / 2)
          (right - left) (top - bottom) 0)) := by
  constructor
  · rintro (h | h) <;> unfold draw_lrtb_rectangle_filled
    · rw [if_pos h]
    · rcases lt_or_le right left with h2 | h2
      · rw [if_pos h2]
      · rw [if_neg (not_lt.mpr h2), if_pos h]
  · intro h1 h2
    unfold draw_lrtb_rectangle_filled
    rw [if_neg (not_lt.mpr h1), if_neg (not_lt.mpr h2)]

/-- C6 witness: `left = 2 > right = 1` fails with `AttributeError`. -/
theorem c6_lrtb_bounds_witness :
    draw_lrtb_rectangle_filled 2 1 3 1 = .error PyErr.attributeError :=
  (c6_lrtb_bounds 2 1 3 1).1 (Or.inl (by norm_num))

/-- Evaluation of the filled rectangle at center (10,10), width 5, height 7,
tilt 0. Python computes `(-5)//2 = -3` and `(-7)//2 = -4`, so the corners are
p1 = (7,6), p2 = (12,6), p3 = (12,13), p4 = (7,13), submitted in the order
(p1, p2, p4, p3). -/
lemma draw_rectangle_filled_10_10_5_7 :
    draw_rectangle_filled 10 10 5 7 0 =
      ([((7 : ℝ), 6), (12, 6), (7, 13), (12, 13)], GLMode.triangleStrip) := by
  unfold draw_rectangle_filled pyFloorDiv
  norm_num

/-- C1 counterexample: for `draw_rectangle_filled(10, 10, 5, 7)` the
submitted point list is not `[(8,7), (12,7), (8,13), (12,13)]` as the claim
(corners (8,7),(12,7),(12,13),(8,13) in order (p1,p2,p4,p3)) requires:
Python floors the negated extents, `(-5)//2 = -3` and `(-7)//2 = -4`, rather
than negating the floored halves. -/
theorem c1_counterexample :
    (draw_rectangle_filled 10 10 5 7 0).1 ≠
      [((8 : ℝ), (7 : ℝ)), (12, 7), (8, 13), (12, 13)] := by
  rw [draw_rectangle_filled_10_10_5_7]
  intro h
  have h1 := congrArg (fun l => l.head?) h
  norm_num [Prod.ext_iff] at h1

/-- C1 amended: the four tessellated corners of the filled rectangle are
computed by floor division of the signed half-extents,
`p_i = (floor(s_w * width / 2) + cx, floor(s_h * height / 2) + cy)` with signs
`(-,-), (+,-), (+,+), (-,+)`; for center (10,10), width 5, height 7 and tilt
0 this gives corners (7,6), (12,6), (12,13), (7,13), and the point list is
submitted in the order (p1, p2, p4, p3) with triangle-strip topology. -/
theorem c1_rectangle_corners :
    draw_rectangle_filled 10 10 5 7 0 =
      ([((7 : ℝ), 6), (12, 6), (7, 13), (12, 13)], GLMode.triangleStrip)
    ∧ ∀ center_x center_y width height : ℝ,
      draw_rectangle_filled center_x center_y width height 0 =
        ([((⌊-width / 2⌋ : ℝ) + center_x, (⌊-height / 2⌋ : ℝ) + center_y),
          ((⌊width / 2⌋ : ℝ) + center_x, (⌊-height / 2⌋ : ℝ) + center_y),
          ((⌊-width / 2⌋ : ℝ) + center_x, (⌊height / 2⌋ : ℝ) + center_y),
          ((⌊width / 2⌋ : ℝ) + center_x, (⌊height / 2⌋ : ℝ) + center_y)],
         GLMode.triangleStrip) := by
  refine ⟨draw_rectangle_filled_10_10_5_7, fun center_x center_y width height => ?_⟩
  unfold draw_rectangle_filled pyFloorDiv
  rw [if_neg (fun h => h rfl)]

/-- C8: `rotate_point` translates into center-relative space, applies the
standard rotation matrix at `angle * pi / 180` radians, translates back and
rounds both coordinates to two decimals; the golden case
`rotate_point(1,1,0,0,90) = (-1.0, 1.0)` holds, and a zero angle returns the
input rounded to two decimals. -/
theorem c8_rotate_point :
    (∀ x y cx cy angle : ℝ,
      rotate_point x y cx cy angle =
        (pyRound2 ((x - cx) * Real.cos (angle * Real.pi / 180)
            - (y - cy) * Real.sin (angle * Real.pi / 180) + cx),
         pyRound2 ((x - cx) * Real.sin (angle * Real.pi / 180)
            + (y - cy) * Real.cos (angle * Real.pi / 180) + cy)))
    ∧ rotate_point 1 1 0 0 90 = (-1, 1)
    ∧ ∀ x y cx cy : ℝ, rotate_point x y cx cy 0 = (pyRound2 x, pyRound2 y) := by
  refine ⟨fun x y cx cy angle => rfl, ?_, rotate_point_angle_zero⟩
  unfold rotate_point
  have ha : (90 : ℝ) * Real.pi / 180 = Real.pi / 2 := by ring
  rw [ha]
  simp [Real.cos_pi_div_two, Real.sin_pi_div_two]
  constructor
  · have h := pyRound2_of_mul_eq (-1 : ℝ) (-100) (by norm_num)
    rw [h]; norm_num
  · have h := pyRound2_of_mul_eq (1 : ℝ) 100 (by norm_num)
    rw [h]; norm_num

/-- For nonnegative angles Python `int()` truncation agrees with the floor,
so the segment index is the floor of `angle / 360 * num_segments`. -/
lemma segment_index_of_nonneg {angle : ℝ} (num_segments : ℕ) (h : 0 ≤ angle) :
    segment_index angle num_segments = ⌊angle / 360 * num_segments⌋ := by
  unfold segment_index pyInt
  rw [if_pos (mul_nonneg (div_nonneg h (by norm_num)) (Nat.cast_nonneg num_segments))]

/-- C3 counterexample: for `start_angle = -1` and 128 segments the code
computes `int(-1 / 360 * 128) = 0` (truncation toward zero), not the floor
`-1`, so the start segment is not `floor(start_angle / 360 * N)` in
general. -/
theorem c3_counterexample :
    segment_index (-1) 128 ≠ ⌊(-1 : ℝ) / 360 * ((128 : ℕ) : ℝ)⌋ := by
  have h1 : segment_index (-1) 128 = 0 := by
    unfold segment_index pyInt
    rw [if_neg (by norm_num)]
    norm_num
  have h2 : ⌊(-1 : ℝ) / 360 * ((128 : ℕ) : ℝ)⌋ = -1 := by norm_num
  rw [h1, h2]
  decide

/-- C3 amended: the start and end segments are `int(angle / 360 * N)`,
truncated toward zero, which equals the floor for nonnegative angles; one
point `(width * cos theta, height * sin theta)` with
`theta = 2 * 3.1415926 * segment / N` is emitted per integer segment from the
start segment to the end segment inclusive, the origin is prepended as the
fan pivot and the list is submitted as a triangle fan after translation; for
`start_angle = 0`, `end_angle = 180`, `num_segments = 128` the range spans
segments 0..64 inclusive (65 points, 66 with the pivot). -/
theorem c3_arc_segments :
    (∀ (angle : ℝ) (num_segments : ℕ), 0 ≤ angle →
      segment_index angle num_segments = ⌊angle / 360 * num_segments⌋)
    ∧ (∀ (center_x center_y width height start_angle end_angle : ℝ) (num_segments : ℕ),
      draw_arc_filled center_x center_y width height start_angle end_angle 0 num_segments =
        ((((0 : ℝ), (0 : ℝ)) ::
            (segmentList (segment_index start_angle num_segments)
                (segment_index end_angle num_segments)).map
              (fun segment =>
                (width * Real.cos (arcTheta segment num_segments),
                 height * Real.sin (arcTheta segment num_segments)))).map
          (fun p => (p.1 + center_x, p.2 + center_y)),
         GLMode.triangleFan))
    ∧ segment_index 0 128 = 0
    ∧ segment_index 180 128 = 64
    ∧ (segmentList (segment_index 0 128) (segment_index 180 128)).length = 65
    ∧ ((draw_arc_filled 0 0 1 1 0 180 0 128).1).length = 66 := by
  have h0 : segment_index (0 : ℝ) 128 = 0 := by
    rw [segment_index_of_nonneg 128 le_rfl]
    norm_num
  have h180 : segment_index (180 : ℝ) 128 = 64 := by
    rw [segment_index_of_nonneg 128 (by norm_num)]
    norm_num
  have hlen : (segmentList (segment_index 0 128) (segment_index 180 128)).length = 65 := by
    rw [h0, h180]
    decide
  refine ⟨fun angle N h => segment_index_of_nonneg N h, ?_, h0, h180, hlen, ?_⟩
  · intro center_x center_y width height start_angle end_angle num_segments
    unfold draw_arc_filled tiltPoints
    rw [if_pos rfl]
  · unfold draw_arc_filled tiltPoints
    rw [if_pos rfl]
    simp only [List.length_map, List.length_cons]
    rw [hlen]

/-- C3 witness: the floor formula instantiated at angle 180 with 128
segments. -/
theorem c3_arc_segments_witness :
    segment_index 180 128 = ⌊(180 : ℝ) / 360 * ((128 : ℕ) : ℝ)⌋ :=
  c3_arc_segments.1 180 128 (by norm_num)

/-- C10: when the computed end segment is below the computed start segment,
`draw_arc_filled` raises nothing (the embedding is total) and submits exactly
the single fan-pivot point `(center_x, center_y)` as a triangle fan, for any
tilt angle. -/
theorem c10_empty_arc (center_x center_y width height start_angle end_angle tilt_angle : ℝ)
    (num_segments : ℕ)
    (h : segment_index end_angle num_segments < segment_index start_angle num_segments) :
    draw_arc_filled center_x center_y width height start_angle end_angle tilt_angle num_segments =
      ([(center_x, center_y)], GLMode.triangleFan) := by
  unfold draw_arc_filled
  rw [segmentList_empty h]
  simp only [List.map_nil]
  unfold tiltPoints
  by_cases ht : tilt_angle = 0
  · rw [if_pos ht]
    simp
  · rw [if_neg ht]
    simp [rotate_point_origin]

/-- C10 witness: `start_angle = 90`, `end_angle = 0` gives start segment 32
and end segment 0, so only the pivot is submitted. -/
theorem c10_empty_arc_witness :
    draw_arc_filled 0 0 1 1 90 0 0 128 = ([((0 : ℝ), (0 : ℝ))], GLMode.triangleFan) :=
  c10_empty_arc 0 0 1 1 90 0 0 128 (by
    have h1 : segment_index (0 : ℝ) 128 = 0 := by
      rw [segment_index_of_nonneg 128 le_rfl]
      norm_num
    have h2 : segment_index (90 : ℝ) 128 = 32 := by
      rw [segment_index_of_nonneg 128 (by norm_num)]
      norm_num
    rw [h1, h2]
    decide)

/-- Concrete two-decimal roundings used below. -/
lemma pyRound2_one : pyRound2 (1 : ℝ) = 1 := by
  have h := pyRound2_of_mul_eq (1 : ℝ) 100 (by norm_num)
  rw [h]; norm_num

/-- Rounding two to two decimals. -/
lemma pyRound2_two : pyRound2 (2 : ℝ) = 2 := by
  have h := pyRound2_of_mul_eq (2 : ℝ) 200 (by norm_num)
  rw [h]; norm_num

/-- Rounding minus one to two decimals. -/
lemma pyRound2_neg_one : pyRound2 (-1 : ℝ) = -1 := by
  have h := pyRound2_of_mul_eq (-1 : ℝ) (-100) (by norm_num)
  rw [h]; norm_num

/-- Rounding of a value with three decimal places: `round(-0.999, 2) = -1.0`. -/
lemma pyRound2_neg0999 : pyRound2 (-1 + 1/1000 : ℝ) = -1 := by
  have harg : (-1 + 1/1000 : ℝ) * 100 = -999/10 := by norm_num
  have hfl : ⌊(-999 : ℝ)/10⌋ = -100 := by norm_num
  have hfr : Int.fract ((-999 : ℝ)/10) < 1/2 := by
    simp [Int.fract, hfl]
    norm_num
  unfold pyRound2 roundHalfEven
  rw [harg, if_pos hfr, hfl]
  norm_num

/-- Floor division of the signed half-extent 2 used in the rectangle runs. -/
lemma pyFloorDiv_neg_two_two : pyFloorDiv (-2 : ℝ) 2 = -1 := by
  unfold pyFloorDiv
  norm_num

/-- Floor division of the half-extent 2 used in the rectangle runs. -/
lemma pyFloorDiv_two_two : pyFloorDiv (2 : ℝ) 2 = 1 := by
  unfold pyFloorDiv
  norm_num

/-- C5 counterexample: for the filled rectangle with center (0.001, 0),
width 2, height 2, the tilt-zero path keeps the corner x-coordinate -0.999,
while the rotation path at angle 0 rounds it to -1.0, so skipping rotation
when the tilt is zero is not semantically neutral for all real-valued
inputs. -/
theorem c5_counterexample :
    draw_rectangle_filled_tilted (1/1000) 0 2 2 0 ≠ draw_rectangle_filled (1/1000) 0 2 2 0 := by
  intro h
  have h1 := congrArg (fun q => q.1.head?) h
  unfold draw_rectangle_filled draw_rectangle_filled_tilted at h1
  rw [if_neg (fun hh => hh rfl)] at h1
  simp only [rotate_point_angle_zero, pyFloorDiv_neg_two_two, List.head?_cons] at h1
  rw [pyRound2_neg0999] at h1
  norm_num [Prod.ext_iff] at h1

/-- C5 amended: applying the rotation branch with angle 0 maps every point to
its coordinatewise two-decimal rounding, so the tilt-zero shortcut agrees
with the rotation path exactly on point lists whose coordinates are fixed by
that rounding; under this hypothesis the arc/ellipse tilt stage and the
filled-rectangle paths coincide. -/
theorem c5_tilt_zero :
    (∀ pts : List (ℝ × ℝ),
      (∀ p ∈ pts, pyRound2 p.1 = p.1 ∧ pyRound2 p.2 = p.2) →
      tiltPointsAlways 0 pts = tiltPoints 0 pts)
    ∧ (∀ center_x center_y width height : ℝ,
      (∀ p ∈ (draw_rectangle_filled center_x center_y width height 0).1,
        pyRound2 p.1 = p.1 ∧ pyRound2 p.2 = p.2) →
      draw_rectangle_filled_tilted center_x center_y width height 0 =
        draw_rectangle_filled center_x center_y width height 0) := by
  constructor
  · intro pts hfix
    unfold tiltPointsAlways tiltPoints
    rw [if_pos rfl]
    have : ∀ p ∈ pts, rotate_point p.1 p.2 0 0 0 = p := by
      intro p hp
      rw [rotate_point_angle_zero, (hfix p hp).1, (hfix p hp).2]
    calc pts.map (fun p => rotate_point p.1 p.2 0 0 0)
        = pts.map id := List.map_congr_left this
      _ = pts := List.map_id pts
  · intro center_x center_y width height hfix
    unfold draw_rectangle_filled at hfix
    rw [if_neg (fun hh => hh rfl)] at hfix
    have m1 := hfix (pyFloorDiv (-width) 2 + center_x, pyFloorDiv (-height) 2 + center_y)
      (by simp)
    have m2 := hfix (pyFloorDiv width 2 + center_x, pyFloorDiv (-height) 2 + center_y)
      (by simp)
    have m3 := hfix (pyFloorDiv (-width) 2 + center_x, pyFloorDiv height 2 + center_y)
      (by simp)
    have m4 := hfix (pyFloorDiv width 2 + center_x, pyFloorDiv height 2 + center_y)
      (by simp)
    dsimp only at m1 m2 m3 m4
    unfold draw_rectangle_filled draw_rectangle_filled_tilted
    rw [if_neg (fun hh => hh rfl)]
    simp only [rotate_point_angle_zero]
    rw [m1.1, m1.2, m2.1, m3.2]

/-- C5 witness: the two amended statements at concrete inputs whose
coordinates are exact at two decimals. -/
theorem c5_tilt_zero_witness :
    tiltPointsAlways 0 [((1 : ℝ), 2)] = tiltPoints 0 [((1 : ℝ), 2)]
    ∧ draw_rectangle_filled_tilted 0 0 2 2 0 = draw_rectangle_filled 0 0 2 2 0 := by
  constructor
  · apply c5_tilt_zero.1
    intro p hp
    simp only [List.mem_singleton] at hp
    rw [hp]
    exact ⟨pyRound2_one, pyRound2_two⟩
  · apply c5_tilt_zero.2
    intro p hp
    unfold draw_rectangle_filled at hp
    rw [if_neg (fun hh => hh rfl)] at hp
    simp only [pyFloorDiv_neg_two_two, pyFloorDiv_two_two, add_zero,
      List.mem_cons, List.mem_singleton, List.not_mem_nil, or_false] at hp
    rcases hp with hp | hp | hp | hp <;> rw [hp] <;>
      exact ⟨by simp [pyRound2_neg_one, pyRound2_one], by simp [pyRound2_neg_one, pyRound2_one]⟩


/-- C2 counterexample: the key tuples `("f", 12, 3, 0, 0, 1, False, False)`
and `("f1", 2, 3, 0, 0, 1, False, False)` are distinct, but their
separator-free string keys coincide, so after loading the first, the second
returns the very `Texture` cached for the first: two distinct key tuples
alias one cache entry (and hence one GPU handle). -/
theorem c2_counterexample :
    (("f", (12 : ℚ), (3 : ℚ), (0 : ℚ), (0 : ℚ), (1 : ℚ), false, false) ≠
      ("f1", (2 : ℚ), (3 : ℚ), (0 : ℚ), (0 : ℚ), (1 : ℚ), false, false))
    ∧ cacheName "f" 12 3 0 0 1 false false = cacheName "f1" 2 3 0 0 1 false false
    ∧ load_texture img100 [] "f" 12 3 0 0 false false 1 =
        .ok (⟨0, 0, 0, "f"⟩, [(cacheName "f" 12 3 0 0 1 false false, ⟨0, 0, 0, "f"⟩)])
    ∧ load_texture img100 [(cacheName "f" 12 3 0 0 1 false false, ⟨0, 0, 0, "f"⟩)]
        "f1" 2 3 0 0 false false 1 =
        .ok (⟨0, 0, 0, "f"⟩, [(cacheName "f" 12 3 0 0 1 false false, ⟨0, 0, 0, "f"⟩)]) := by
  refine ⟨by simp [Prod.ext_iff], by decide, ?_, ?_⟩
  · unfold load_texture img100
    simp only [lookupCache]
    norm_num [mkTexture]
  · unfold load_texture
    rw [show cacheName "f1" 2 3 0 0 1 false false = cacheName "f" 12 3 0 0 1 false false from
      by decide]
    simp [lookupCache]

/-- C2 amended: a repeated `load_texture` call with the same argument tuple
returns the same cached `Texture` instance with the cache unchanged, and two
calls differing only in scale (1 versus 2) produce different keys and two
distinct cache entries; however the key is a separator-free concatenation,
so distinct key tuples are not guaranteed distinct entries. -/
theorem c2_texture_cache :
    (∀ (img : String → ℚ × ℚ) (cache : List (String × Texture)) (file_name : String)
      (x y width height : ℚ) (mirrored flipped : Bool) (scale : ℚ)
      (t : Texture) (cache2 : List (String × Texture)),
      load_texture img cache file_name x y width height mirrored flipped scale = .ok (t, cache2) →
      load_texture img cache2 file_name x y width height mirrored flipped scale = .ok (t, cache2))
    ∧ cacheName "f" 1 1 1 1 1 false false ≠ cacheName "f" 1 1 1 1 2 false false
    ∧ load_texture img100 [] "f" 1 1 1 1 false false 1 =
        .ok (⟨0, 1, 1, "f"⟩, [(cacheName "f" 1 1 1 1 1 false false, ⟨0, 1, 1, "f"⟩)])
    ∧ load_texture img100 [(cacheName "f" 1 1 1 1 1 false false, ⟨0, 1, 1, "f"⟩)]
        "f" 1 1 1 1 false false 2 =
        .ok (⟨1, 2, 2, "f"⟩,
          [(cacheName "f" 1 1 1 1 2 false false, ⟨1, 2, 2, "f"⟩),
           (cacheName "f" 1 1 1 1 1 false false, ⟨0, 1, 1, "f"⟩)])
    ∧ (⟨0, 1, 1, "f"⟩ : Texture) ≠ ⟨1, 2, 2, "f"⟩ := by
  refine ⟨?_, by decide, ?_, ?_, by decide⟩
  · intro img cache file_name x y width height mirrored flipped scale t cache2 hload
    unfold load_texture at hload ⊢
    split at hload
    · rename_i t0 heq
      simp only [Except.ok.injEq, Prod.mk.injEq] at hload
      obtain ⟨rfl, rfl⟩ := hload
      rw [heq]
    · rename_i heq
      split_ifs at hload <;> try exact absurd hload (by simp)
      · split at hload
        · exact absurd hload (by simp)
        · rename_i t1 hmk
          simp only [Except.ok.injEq, Prod.mk.injEq] at hload
          obtain ⟨rfl, rfl⟩ := hload
          simp [lookupCache]
      · split at hload
        · exact absurd hload (by simp)
        · rename_i t1 hmk
          simp only [Except.ok.injEq, Prod.mk.injEq] at hload
          obtain ⟨rfl, rfl⟩ := hload
          simp [lookupCache]
  · unfold load_texture img100
    simp only [lookupCache]
    norm_num [mkTexture]
  · unfold load_texture img100
    rw [show lookupCache [(cacheName "f" 1 1 1 1 1 false false, ⟨0, 1, 1, "f"⟩)]
        (cacheName "f" 1 1 1 1 2 false false) = none from by decide]
    norm_num [mkTexture]

/-- C2 witness: the cache-hit identity applied after a concrete first load
of the full 100 by 100 image. -/
theorem c2_texture_cache_witness :
    load_texture img100 [(cacheName "f" 0 0 0 0 1 false false, ⟨0, 100, 100, "f"⟩)]
        "f" 0 0 0 0 false false 1 =
      .ok (⟨0, 100, 100, "f"⟩, [(cacheName "f" 0 0 0 0 1 false false, ⟨0, 100, 100, "f"⟩)]) :=
  c2_texture_cache.1 img100 [] "f" 0 0 0 0 false false 1 ⟨0, 100, 100, "f"⟩
    [(cacheName "f" 0 0 0 0 1 false false, ⟨0, 100, 100, "f"⟩)] (by
      unfold load_texture img100
      simp only [lookupCache]
      norm_num [mkTexture])

/-- Successful runs of the `load_textures` loop report exactly the requested
crop width and height for every entry, in input order. -/
lemma load_textures_loop_dims :
    ∀ (locs : List ImageLocation) (sw sh : ℚ) (n : ℕ) (ts : List Texture),
      load_textures_loop sw sh locs n = .ok ts →
      ts.map (fun t => (t.width, t.height)) = locs.map (fun loc => (loc.width, loc.height)) := by
  intro locs
  induction locs with
  | nil =>
    intro sw sh n ts h
    unfold load_textures_loop at h
    simp only [Except.ok.injEq] at h
    subst h
    rfl
  | cons loc rest ih =>
    intro sw sh n ts h
    unfold load_textures_loop at h
    split_ifs at h <;> try exact absurd h (by simp)
    split at h
    · exact absurd h (by simp)
    · rename_i t hmk
      split at h
      · exact absurd h (by simp)
      · rename_i ts2 hrec
        simp only [Except.ok.injEq] at h
        subst h
        have ht := mkTexture_ok hmk
        simp only [List.map_cons, ht]
        rw [ih sw sh (n + 1) ts2 hrec]

/-- C9: every `Texture` returned by `load_textures` reports the width and
height of its requested crop rectangle; `mirrored`, `flipped` and `scale`
have no effect on the result; by contrast a fresh cropped `load_texture`
reports the crop dimensions multiplied by `scale`. -/
theorem c9_load_textures_dims :
    (∀ (source_image_width source_image_height : ℚ) (locs : List ImageLocation)
      (mirrored flipped : Bool) (scale : ℚ) (ts : List Texture),
      load_textures source_image_width source_image_height locs mirrored flipped scale = .ok ts →
      ts.map (fun t => (t.width, t.height)) = locs.map (fun loc => (loc.width, loc.height)))
    ∧ (∀ (source_image_width source_image_height : ℚ) (locs : List ImageLocation)
      (mirrored flipped : Bool) (scale : ℚ) (mirrored2 flipped2 : Bool) (scale2 : ℚ),
      load_textures source_image_width source_image_height locs mirrored flipped scale =
        load_textures source_image_width source_image_height locs mirrored2 flipped2 scale2)
    ∧ (∀ (img : String → ℚ × ℚ) (file_name : String) (x y width height : ℚ)
      (mirrored flipped : Bool) (scale : ℚ) (t : Texture) (cache2 : List (String × Texture)),
      load_texture img [] file_name x y width height mirrored flipped scale = .ok (t, cache2) →
      (x ≠ 0 ∨ y ≠ 0 ∨ width ≠ 0 ∨ height ≠ 0) →
      t.width = width * scale ∧ t.height = height * scale) := by
  refine ⟨?_, ?_, ?_⟩
  · intro sw sh locs mirrored flipped scale ts h
    exact load_textures_loop_dims locs sw sh 0 ts h
  · intro sw sh locs mirrored flipped scale mirrored2 flipped2 scale2
    rfl
  · intro img file_name x y width height mirrored flipped scale t cache2 hload hcrop
    unfold load_texture at hload
    split at hload
    · rename_i t0 heq
      exact absurd heq (by simp [lookupCache])
    · rw [if_pos hcrop] at hload
      split_ifs at hload <;> try exact Except.noConfusion hload
      split at hload
      · exact Except.noConfusion hload
      · rename_i t1 hmk
        simp only [Except.ok.injEq, Prod.mk.injEq] at hload
        obtain ⟨rfl, rfl⟩ := hload
        rw [mkTexture_ok hmk]
        exact ⟨rfl, rfl⟩

/-- C9 witness: one crop rectangle of size 10 by 20 from a 100 by 100 image
with scale 5 reports (10, 20), and a fresh `load_texture` of a 10 by 20 crop
with scale 3 reports dimensions 10 * 3 and 20 * 3. -/
theorem c9_load_textures_dims_witness :
    ([⟨0, 10, 20, locString ⟨0, 0, 10, 20⟩⟩] : List Texture).map (fun t => (t.width, t.height)) =
      ([⟨0, 0, 10, 20⟩] : List ImageLocation).map (fun loc => (loc.width, loc.height))
    ∧ ((⟨0, 30, 60, "f"⟩ : Texture).width = 10 * 3
        ∧ (⟨0, 30, 60, "f"⟩ : Texture).height = 20 * 3) := by
  constructor
  · exact c9_load_textures_dims.1 100 100 [⟨0, 0, 10, 20⟩] false false 5
      [⟨0, 10, 20, locString ⟨0, 0, 10, 20⟩⟩] (by
        unfold load_textures load_textures_loop
        norm_num [mkTexture]
        rw [show load_textures_loop 100 100 [] 1 = .ok [] from rfl])
  · exact c9_load_textures_dims.2.2 img100 "f" 2 2 10 20 false false 3 ⟨0, 30, 60, "f"⟩
      [(cacheName "f" 2 2 10 20 3 false false, ⟨0, 30, 60, "f"⟩)] (by
        unfold load_texture img100
        simp only [lookupCache]
        norm_num [mkTexture]) (by norm_num)
